import Mathlib

/-!
Verification of the Ticket & Health Aggregator (`src-tauri/src/ipc.rs`).

The Rust module answers IPC calls by reading JSON documents from a data
directory, aggregating them, and mutating two of them.  We shallowly embed
the JSON data model (`serde_json::Value`) and each IPC operation as a pure
Lean function.  File-system effects are made explicit:

* the content a file read can yield is a `FileRead` (absent/unreadable,
  readable-but-malformed, or a parsed JSON value);
* a mutator takes the prior `FileRead`, its inputs, the ambient clock value
  it samples, and a `writeOk : Bool` modelling whether `std::fs::write`
  succeeds, and returns its result together with the resulting `FileRead`.

JSON numbers are modelled as integers (`Int`): no claim under scrutiny
depends on non-integral numeric values, and all counts produced by the code
are small non-negative integers.  Rust `&str` comparison is byte-wise
lexicographic on UTF-8, which coincides with code-point lexicographic
order, embedded here as `str_lt` on the character lists.
-/

namespace Opsis

/-- `serde_json::Value`.  Objects are association lists; `serde_json`'s map
keys are unique, but none of the definitions below depend on that. -/
inductive Json where
  | null : Json
  | bool : Bool → Json
  | num : Int → Json
  | str : String → Json
  | arr : List Json → Json
  | obj : List (String × Json) → Json
deriving Repr

/-- First value bound to key `k` in an association list. -/
def lookupKey (k : String) : List (String × Json) → Option Json
  | [] => none
  | (k', v) :: rest => if k' = k then some v else lookupKey k rest

/-- First value bound to key `k`, as `serde_json`'s `Value::get` with a
string index: `None` on non-objects. -/
def Json.get (v : Json) (k : String) : Option Json :=
  match v with
  | .obj kvs => lookupKey k kvs
  | _ => none

/-- `Value::as_str`. -/
def Json.asStr : Json → Option String
  | .str s => some s
  | _ => none

/-- `Value::as_i64` (numbers are modelled as integers). -/
def Json.asI64 : Json → Option Int
  | .num n => some n
  | _ => none

/-- `Value::as_f64` (numbers are modelled as integers). -/
def Json.asF64 : Json → Option Int
  | .num n => some n
  | _ => none

/-- `Value::as_bool`. -/
def Json.asBool : Json → Option Bool
  | .bool b => some b
  | _ => none

/-- `Value::as_array`. -/
def Json.asArray : Json → Option (List Json)
  | .arr xs => some xs
  | _ => none

/-- `Value::as_object`. -/
def Json.asObject : Json → Option (List (String × Json))
  | .obj kvs => some kvs
  | _ => none

/-- Replace the value bound to the first occurrence of `k` (identity when
the key is absent): the effect of writing through `get_mut(k)`. -/
def replaceKey (k : String) (v : Json) : List (String × Json) → List (String × Json)
  | [] => []
  | (k', v') :: rest =>
      if k' = k then (k', v) :: rest else (k', v') :: replaceKey k v rest

/-- `BTreeMap::insert`: replace the binding when the key is present,
otherwise add a new binding (position in the list is immaterial to `get`). -/
def insertKey (kvs : List (String × Json)) (k : String) (v : Json) : List (String × Json) :=
  if (lookupKey k kvs).isSome then replaceKey k v kvs else kvs ++ [(k, v)]

/-- Byte-wise lexicographic `<` of Rust `&str`, on code points. -/
def strLtL : List Char → List Char → Bool
  | [], [] => false
  | [], _ :: _ => true
  | _ :: _, [] => false
  | a :: as, b :: bs => if a < b then true else if b < a then false else strLtL as bs

/-- Rust `a < b` on `&str`. -/
def str_lt (a b : String) : Bool := strLtL a.data b.data

/-- Rust `a >= b` on `&str`. -/
def str_ge (a b : String) : Bool := !(str_lt a b)

/-- What reading one file can yield: missing/unreadable, readable but not
valid JSON, or a parsed value. -/
inductive FileRead where
  | absent : FileRead
  | malformed : FileRead
  | json : Json → FileRead
deriving Repr

/-- `read_json_file`: `None` unless the file is readable and parses. -/
def read_json_file : FileRead → Option Json
  | .json v => some v
  | _ => none

/-- The `tickets` array of a parsed `tickets.json` document
(`data.get("tickets").and_then(as_array)`). -/
def ticketsArr (d : Json) : Option (List Json) :=
  (d.get "tickets").bind Json.asArray

/-- Write the `tickets` field of a document through `get_mut` (only ever
reached when the key is present and an array). -/
def setTickets (d : Json) (ts : List Json) : Json :=
  match d with
  | .obj kvs => .obj (replaceKey "tickets" (.arr ts) kvs)
  | other => other

-- ---------- Stats ----------

/-- The `Stats` record; all four `i64` fields are non-negative counts or a
percentage, so `Nat` carries their values exactly. -/
structure Stats where
  issues_detected : Nat
  active_tickets : Nat
  issues_escalated : Nat
  success_rate : Nat
deriving Repr, DecidableEq

/-- Predicate of the `active` filter in `get_stats`. -/
def activeB (t : Json) : Bool :=
  let status := ((t.get "status").bind Json.asStr).getD ""
  let result := ((t.get "result").bind Json.asStr).getD ""
  status ≠ "resolved" && result ≠ "success"

/-- Predicate of the `escalated` filter in `get_stats`. -/
def escalatedB (t : Json) : Bool :=
  match t.get "escalated" with
  | some v => (v.asI64.getD 0 == 1) || v.asBool.getD false
  | none => false

/-- Predicate of the `success_count` filter in `get_stats`. -/
def successB (t : Json) : Bool :=
  ((t.get "result").bind Json.asStr) == some "success"

/-- Predicate of the `with_result` filter in `get_stats`. -/
def withResultB (t : Json) : Bool :=
  ((t.get "result").bind Json.asStr).isSome

/-- `get_stats`. -/
def get_stats (st : FileRead) : Stats :=
  let default : Stats := ⟨0, 0, 0, 0⟩
  match read_json_file st with
  | none => default
  | some data =>
    match ticketsArr data with
    | none => default
    | some tickets =>
      let total := tickets.length
      let active := (tickets.filter activeB).length
      let escalated := (tickets.filter escalatedB).length
      let success_count := (tickets.filter successB).length
      let with_result := (tickets.filter withResultB).length
      let success_rate := if with_result > 0 then (success_count * 100) / with_result else 0
      ⟨total, active, escalated, success_rate⟩

-- ---------- Tickets ----------

/-- `get_tickets`. -/
def get_tickets (st : FileRead) : List Json :=
  match read_json_file st with
  | none => []
  | some data =>
    match ticketsArr data with
    | some tickets => tickets.take 100
    | none => []

-- ---------- Clear old tickets ----------

/-- The timestamp string `clear_old_tickets` compares: the `timestamp`
field, the `created_at` field when the `timestamp` key is absent, and `""`
when the selected field is absent or not a string. -/
def tsOf (t : Json) : String :=
  (((t.get "timestamp").or (t.get "created_at")).bind Json.asStr).getD ""

/-- `clear_old_tickets`.  `cutoff` is the RFC 3339 rendering of
`Utc::now() - 24h` sampled inside the call; `writeOk` tells whether the
final `fs::write` succeeds.  Returns the removed count and the resulting
file state. -/
def clear_old_tickets (st : FileRead) (cutoff : String) (writeOk : Bool) :
    Int × FileRead :=
  match st with
  | .absent => (0, .absent)
  | .malformed => (0, .malformed)
  | .json data =>
    match ticketsArr data with
    | none => (0, .json data)
    | some tickets =>
      let kept := tickets.filter (fun t => str_ge (tsOf t) cutoff)
      let newData := setTickets data kept
      (((tickets.length - kept.length : Nat) : Int),
       if writeOk then .json newData else .json data)

-- ---------- Submit manual ticket ----------

/-- The `ManualTicket` payload (all caller-supplied strings). -/
structure ManualTicket where
  server_name : String
  category : String
  description : String
  priority : String
  submitted_at : String
deriving Repr

/-- The record synthesized by `submit_manual_ticket`; `now` is
`Utc::now().timestamp_millis()`. -/
def newTicket (ticket : ManualTicket) (now : Int) : Json :=
  .obj [
    ("ticket_id", .str ("manual-" ++ toString now)),
    ("timestamp", .str ticket.submitted_at),
    ("type", .str "manual-review"),
    ("issue_type", .str ticket.category),
    ("description", .str ticket.description),
    ("priority", .str ticket.priority),
    ("status", .str "open"),
    ("source", .str "manual"),
    ("computer_name", .str ticket.server_name)]

/-- `submit_manual_ticket`.  A read failure yields the default string
`{"tickets":[]}`, a parse failure the fallback `json!({"tickets": []})` —
both the same document.  The new record is prepended only when the parsed
document has a `tickets` array; the document (changed or not) is then
written back, and the boolean reports the write's success. -/
def submit_manual_ticket (st : FileRead) (ticket : ManualTicket) (now : Int)
    (writeOk : Bool) : Bool × FileRead :=
  let data : Json :=
    match st with
    | .json v => v
    | _ => .obj [("tickets", .arr [])]
  let data' : Json :=
    match ticketsArr data with
    | some tickets => setTickets data (newTicket ticket now :: tickets)
    | none => data
  (writeOk, if writeOk then .json data' else st)

-- ---------- Update settings ----------

/-- The partial `SettingsUpdate` payload. -/
structure SettingsUpdate where
  server_url : Option String := none
  monitor_interval : Option Int := none
  alert_email : Option String := none
  log_retention : Option Int := none
  confidence_threshold : Option Int := none
deriving Repr

/-- The five recognized settings keys. -/
def settingsKeys : List String :=
  ["serverUrl", "monitorInterval", "alertEmail", "logRetention", "confidenceThreshold"]

/-- One `if let Some(v) = field { obj.insert(key, v) }` step of
`update_settings`. -/
def insOpt (kvs : List (String × Json)) (k : String) (ov : Option Json) :
    List (String × Json) :=
  match ov with
  | some v => insertKey kvs k v
  | none => kvs

/-- The read-modify step of `update_settings` on the decoded object: the
five conditional inserts, in source order. -/
def applySettings (kvs : List (String × Json)) (s : SettingsUpdate) :
    List (String × Json) :=
  let o1 := insOpt kvs "serverUrl" (s.server_url.map Json.str)
  let o2 := insOpt o1 "monitorInterval" (s.monitor_interval.map Json.num)
  let o3 := insOpt o2 "alertEmail" (s.alert_email.map Json.str)
  let o4 := insOpt o3 "logRetention" (s.log_retention.map Json.num)
  insOpt o4 "confidenceThreshold" (s.confidence_threshold.map Json.num)

/-- `update_settings`.  A missing, unreadable or malformed file decodes to
`{}`.  The code then calls `config.as_object_mut().unwrap()`: on a parsed
document that is not an object this panics, modelled as result `none`.
Otherwise the boolean result reports the write's success. -/
def update_settings (st : FileRead) (s : SettingsUpdate) (writeOk : Bool) :
    Option Bool × FileRead :=
  let config : Json :=
    match st with
    | .json v => v
    | _ => .obj []
  match config with
  | .obj kvs =>
      let config' : Json := .obj (applySettings kvs s)
      (some writeOk, if writeOk then .json config' else st)
  | _ => (none, st)

-- ---------- Load settings ----------

/-- `get_settings`. -/
def get_settings (st : FileRead) : Json :=
  (read_json_file st).getD (.obj [])

-- ---------- Health data ----------

/-- The `HealthData` record. -/
structure HealthData where
  health_scores : Json
  correlations : Json
  patterns : List Json
  proactive_actions : List Json
deriving Repr

/-- Rust `str::split(sep)` on the character list: every occurrence of the
separator starts a new (possibly empty) segment; the empty string yields
one empty segment. -/
def splitChar (sep : Char) : List Char → List (List Char)
  | [] => [[]]
  | c :: cs =>
    if c = sep then [] :: splitChar sep cs
    else
      match splitChar sep cs with
      | [] => [[c]]
      | h :: t => (c :: h) :: t

/-- `key.split(':').nth(1).unwrap_or(key)`: the second colon-separated
segment, or the whole key when there is no colon. -/
def displayName (key : String) : String :=
  ((splitChar ':' key.data).map String.mk).getD 1 key

/-- The per-resource score/trend record built by `build_health_scores`. -/
def healthRecord (resource : Json) : Json :=
  let severity := ((resource.get "severityLevel").bind Json.asStr).getD "info"
  let state := ((resource.get "currentState").bind Json.asStr).getD "ok"
  let score : Int :=
    match severity with
    | "critical" => 20
    | "error" => 40
    | "warning" => 65
    | _ => 100
  let trend : String :=
    match state with
    | "critical" => "degrading"
    | "error" => "degrading"
    | "warning" => "stable"
    | _ => "improving"
  .obj [("score", .num score), ("trend", .str trend)]

/-- `build_health_scores`. -/
def build_health_scores (st : FileRead) : Json :=
  match read_json_file st with
  | none => .obj []
  | some data =>
    match (data.get "resources").bind Json.asObject with
    | none => .obj []
    | some resources =>
      .obj (resources.foldl
        (fun scores kv => insertKey scores (displayName kv.1) (healthRecord kv.2)) [])

/-- The per-pattern record built by `build_patterns`. -/
def patternRecord (key : String) (val : Json) : Json :=
  .obj [
    ("patternId", .str key),
    ("signalId", .str key),
    ("occurrenceCount", .num (((val.get "occurrenceCount").bind Json.asI64).getD 0)),
    ("trend", .str (((val.get "trend").bind Json.asStr).getD "stable")),
    ("frequency", .num (((val.get "frequency").bind Json.asF64).getD 0)),
    ("urgency", .str (((val.get "urgency").bind Json.asStr).getD "low")),
    ("recommendation", .str (((val.get "recommendation").bind Json.asStr).getD ""))]

/-- `build_patterns`. -/
def build_patterns (st : FileRead) : List Json :=
  match read_json_file st with
  | none => []
  | some data =>
    match (data.get "patterns").bind Json.asObject with
    | none => []
    | some patterns =>
      (patterns.take 20).map (fun kv => patternRecord kv.1 kv.2)

/-- The per-action record built by `build_proactive_actions`. -/
def actionRecord (a : Json) : Json :=
  let severity :=
    (((a.get "signature").bind (fun s => s.get "severity")).bind Json.asStr).getD "low"
  .obj [
    ("title", .str (((a.get "signature_id").bind Json.asStr).getD "Action")),
    ("urgency", .str severity),
    ("reasoning", .str (((a.get "server_message").bind Json.asStr).getD ""))]

/-- `build_proactive_actions`. -/
def build_proactive_actions (st : FileRead) : List Json :=
  match read_json_file st with
  | none => []
  | some data =>
    match (data.get "pending_actions").bind Json.asArray with
    | none => []
    | some actions =>
      (actions.take 10).map actionRecord

/-- `get_health_data` over the three files it reads
(`state-tracker.json`, `pattern-detector.json`, `pending-actions.json`). -/
def get_health_data (stTracker stPattern stPending : FileRead) : HealthData :=
  { health_scores := build_health_scores stTracker
    correlations := .obj []
    patterns := build_patterns stPattern
    proactive_actions := build_proactive_actions stPending }

-- ---------- Spec-side definitions for the health-score refinement ----------

/-- Score table as the spec words it: `severityLevel` `critical`→20,
`error`→40, `warning`→65, anything else or missing→100. -/
def scoreSpec (sev : Option String) : Int :=
  if sev = some "critical" then 20
  else if sev = some "error" then 40
  else if sev = some "warning" then 65
  else 100

/-- Trend table as the spec words it: `currentState` `critical` or
`error`→"degrading", `warning`→"stable", anything else or
missing→"improving". -/
def trendSpec (st : Option String) : String :=
  if st = some "critical" ∨ st = some "error" then "degrading"
  else if st = some "warning" then "stable"
  else "improving"

/-- Per-resource record as the spec words it: score determined solely by
`severityLevel`, trend solely by `currentState`. -/
def healthRecordSpec (r : Json) : Json :=
  .obj [("score", .num (scoreSpec ((r.get "severityLevel").bind Json.asStr))),
        ("trend", .str (trendSpec ((r.get "currentState").bind Json.asStr)))]

-- ---------- Concrete fixtures used by witnesses and counterexamples ----------

/-- A ticket dated long before any realistic cutoff. -/
def sampleTicketOld : Json :=
  .obj [("ticket_id", .str "t1"), ("timestamp", .str "2020-01-01T00:00:00+00:00")]

/-- A ticket dated long after any realistic cutoff. -/
def sampleTicketNew : Json :=
  .obj [("ticket_id", .str "t2"), ("timestamp", .str "2099-01-01T00:00:00+00:00")]

/-- A cutoff between the two sample tickets. -/
def sampleCutoff : String := "2025-06-01T00:00:00+00:00"

/-- A tickets document holding the two sample tickets. -/
def sampleTicketsDoc : Json := .obj [("tickets", .arr [sampleTicketOld, sampleTicketNew])]

/-- A concrete manual-ticket payload. -/
def sampleManual : ManualTicket :=
  ⟨"srv1", "disk", "low space", "high", "2025-06-02T00:00:00+00:00"⟩

/-- A tickets document exercising all four statistics. -/
def sampleStatsDoc : Json :=
  .obj [("tickets", .arr [
    .obj [("status", .str "resolved"), ("result", .str "success"), ("escalated", .num 1)],
    .obj [("status", .str "open"), ("result", .str "failed")],
    .obj [("status", .str "open"), ("escalated", .bool true)]])]

-- ---------- Helper lemmas ----------

theorem lookup_replaceKey (kvs : List (String × Json)) (k k' : String) (v : Json) :
    lookupKey k' (replaceKey k v kvs) =
      if k' = k then (lookupKey k' kvs).map (fun _ => v) else lookupKey k' kvs := by
  induction kvs with
  | nil => simp [replaceKey, lookupKey]
  | cons hd tl ih =>
    obtain ⟨k₀, v₀⟩ := hd
    by_cases h0 : k₀ = k
    · by_cases h1 : k₀ = k'
      · have hk'k : k' = k := h1 ▸ h0
        simp [replaceKey, lookupKey, h0, h1, hk'k]
      · have hk'k : ¬k' = k := fun hh => h1 (h0.trans hh.symm)
        have hkk' : ¬k = k' := fun hh => hk'k hh.symm
        simp [replaceKey, lookupKey, h0, h1, hk'k, hkk']
    · by_cases h1 : k₀ = k'
      · have hk'k : ¬k' = k := fun hh => h0 (h1.trans hh)
        simp [replaceKey, lookupKey, h0, h1, hk'k]
      · simp [replaceKey, lookupKey, h0, h1, ih]

theorem lookup_append_pair (l₁ l₂ : List (String × Json)) (k : String) :
    lookupKey k (l₁ ++ l₂) =
      match lookupKey k l₁ with
      | some v => some v
      | none => lookupKey k l₂ := by
  induction l₁ with
  | nil => simp [lookupKey]
  | cons hd tl ih =>
    obtain ⟨k₀, v₀⟩ := hd
    by_cases h : k₀ = k <;> simp [lookupKey, h, ih]

theorem lookup_insertKey (kvs : List (String × Json)) (k k' : String) (v : Json) :
    lookupKey k' (insertKey kvs k v) =
      if k' = k then some v else lookupKey k' kvs := by
  unfold insertKey
  by_cases hk : (lookupKey k kvs).isSome
  · rw [if_pos hk, lookup_replaceKey]
    by_cases h : k' = k
    · subst h
      obtain ⟨w, hw⟩ := Option.isSome_iff_exists.mp hk
      simp [hw]
    · simp [h]
  · rw [if_neg hk, lookup_append_pair]
    by_cases h : k' = k
    · subst h
      rw [Option.not_isSome_iff_eq_none] at hk
      simp [hk, lookupKey]
    · have hkk : ¬k = k' := fun hh => h hh.symm
      cases hl : lookupKey k' kvs <;> simp [h, hl, lookupKey, hkk]

theorem length_sub_filter (p : Json → Bool) (l : List Json) :
    l.length - (l.filter p).length = (l.filter (fun a => !(p a))).length := by
  induction l with
  | nil => rfl
  | cons hd tl ih =>
    have hle := List.length_filter_le p tl
    cases h : p hd <;> simp [List.filter_cons, h] <;> omega

theorem filter_idem (p : Json → Bool) (l : List Json) :
    (l.filter p).filter p = l.filter p := by
  induction l with
  | nil => rfl
  | cons hd tl ih =>
    cases h : p hd <;> simp [List.filter_cons, h, ih]

theorem strLt_empty (c : String) (h : c ≠ "") : str_lt "" c = true := by
  unfold str_lt
  cases c with
  | mk data =>
    cases data with
    | nil => exact absurd rfl h
    | cons a as => rfl

theorem decide_ne_eq_bne (a b : String) : (decide (a ≠ b)) = (a != b) := by
  by_cases h : a = b <;> simp [h]

theorem escalatedB_eq (t : Json) :
    escalatedB t = (match t.get "escalated" with
      | some (.num 1) => true
      | some (.bool true) => true
      | _ => false) := by
  unfold escalatedB
  cases hv : t.get "escalated" with
  | none => rfl
  | some v =>
    cases v with
    | null => rfl
    | bool b => cases b <;> rfl
    | str s => rfl
    | arr l => rfl
    | obj o => rfl
    | num n =>
      cases n with
      | ofNat m =>
        match m with
        | 0 => rfl
        | 1 => rfl
        | (m + 2) => rfl
      | negSucc m => rfl

theorem ticketsArr_eq_some (d : Json) (ts : List Json) (h : ticketsArr d = some ts) :
    ∃ kvs, d = .obj kvs ∧ lookupKey "tickets" kvs = some (.arr ts) := by
  cases d <;> simp [ticketsArr, Json.get] at h
  case obj kvs =>
    refine ⟨kvs, rfl, ?_⟩
    cases hl : lookupKey "tickets" kvs with
    | none => rw [hl] at h; simp at h
    | some j =>
      rw [hl] at h
      cases j <;> simp [Json.asArray] at h
      case arr l => rw [h]

theorem ticketsArr_setTickets (d : Json) (ts ts' : List Json)
    (h : ticketsArr d = some ts) : ticketsArr (setTickets d ts') = some ts' := by
  obtain ⟨kvs, rfl, hl⟩ := ticketsArr_eq_some d ts h
  simp [setTickets, ticketsArr, Json.get, lookup_replaceKey, hl, Json.asArray]

-- ---------- Claim theorems ----------

/-- C3: on a document with a `tickets` array, `get_stats` returns the array
length; the count of tickets whose `status` is not `"resolved"` and whose
`result` is not `"success"` (missing fields defaulting to `""`); the count
of tickets whose `escalated` field is the integer 1 or the boolean `true`;
and `floor (100 * success_count / count_with_a_string_result)`, or 0 when
no ticket has a string `result`.  A missing/unreadable/malformed file or a
missing `tickets` array yields all four fields zero. -/
theorem get_stats_correct (d : Json) (ts : List Json) (h : ticketsArr d = some ts) :
    get_stats (.json d) =
      { issues_detected := ts.length
        active_tickets := (ts.filter (fun t =>
            ((((t.get "status").bind Json.asStr).getD "") != "resolved")
            && ((((t.get "result").bind Json.asStr).getD "") != "success"))).length
        issues_escalated := (ts.filter (fun t =>
            match t.get "escalated" with
            | some (.num 1) => true
            | some (.bool true) => true
            | _ => false)).length
        success_rate :=
          if (ts.filter (fun t => ((t.get "result").bind Json.asStr).isSome)).length = 0
          then 0
          else (100 * (ts.filter (fun t =>
                  (t.get "result").bind Json.asStr == some "success")).length)
               / (ts.filter (fun t => ((t.get "result").bind Json.asStr).isSome)).length }
    ∧ (∀ st, read_json_file st = none → get_stats st = ⟨0, 0, 0, 0⟩)
    ∧ (∀ d', ticketsArr d' = none → get_stats (.json d') = ⟨0, 0, 0, 0⟩) := by
  refine ⟨?_, ?_, ?_⟩
  · simp only [get_stats, read_json_file, h]
    simp only [Stats.mk.injEq]
    refine ⟨by trivial, ?_, ?_, ?_⟩
    · exact congrArg List.length (List.filter_congr (fun t _ => by
        simp only [activeB, decide_ne_eq_bne]))
    · exact congrArg List.length (List.filter_congr (fun t _ => escalatedB_eq t))
    · have hw : (ts.filter withResultB) =
          ts.filter (fun t => ((t.get "result").bind Json.asStr).isSome) := rfl
      have hs : (ts.filter successB) =
          ts.filter (fun t => (t.get "result").bind Json.asStr == some "success") := rfl
      rw [← hw, ← hs]
      rcases Nat.eq_zero_or_pos (ts.filter withResultB).length with h0 | h0
      · simp [h0]
      · rw [if_pos h0, if_neg (by omega), Nat.mul_comm]
  · intro st hst
    cases st <;> simp_all [get_stats, read_json_file]
  · intro d' h'
    simp [get_stats, read_json_file, h']

/-- Witness for C3 at a three-ticket document exercising every field. -/
theorem get_stats_correct_witness :
    get_stats (.json sampleStatsDoc) = ⟨3, 2, 2, 50⟩ := by
  rw [(get_stats_correct sampleStatsDoc
        [.obj [("status", .str "resolved"), ("result", .str "success"), ("escalated", .num 1)],
         .obj [("status", .str "open"), ("result", .str "failed")],
         .obj [("status", .str "open"), ("escalated", .bool true)]] rfl).1]
  rfl

/-- C7: on a document with a `tickets` array, `get_tickets` returns exactly
the first `min 100 n` entries in stored order (a prefix of the source
sequence, never more than 100 entries); a missing/unreadable/malformed file
or a missing/mistyped `tickets` field yields the empty sequence. -/
theorem get_tickets_correct (d : Json) (ts : List Json) (h : ticketsArr d = some ts) :
    get_tickets (.json d) = ts.take 100
    ∧ (get_tickets (.json d)).length = min 100 ts.length
    ∧ get_tickets (.json d) ++ ts.drop 100 = ts
    ∧ (∀ st, read_json_file st = none → get_tickets st = [])
    ∧ (∀ d', ticketsArr d' = none → get_tickets (.json d') = []) := by
  have h1 : get_tickets (.json d) = ts.take 100 := by
    simp [get_tickets, read_json_file, h]
  refine ⟨h1, ?_, ?_, ?_, ?_⟩
  · rw [h1, List.length_take]
  · rw [h1, List.take_append_drop]
  · intro st hst
    cases st <;> simp_all [get_tickets, read_json_file]
  · intro d' h'
    simp [get_tickets, read_json_file, h']

/-- Witness for C7 at the two-ticket sample document. -/
theorem get_tickets_correct_witness :
    get_tickets (.json sampleTicketsDoc) = [sampleTicketOld, sampleTicketNew] := by
  rw [(get_tickets_correct sampleTicketsDoc [sampleTicketOld, sampleTicketNew] rfl).1]
  rfl

/-- C4: on a document with a `tickets` array and a non-empty cutoff string,
`clear_old_tickets` returns exactly the number of tickets whose selected
timestamp string (`timestamp`, falling back to `created_at` when the
`timestamp` key is absent, and to `""` when the selected value is absent or
not a string) is lexicographically less than the cutoff; it writes back the
document with exactly the non-removed tickets kept in their original order;
a ticket with neither `timestamp` nor `created_at` is always removed; and a
missing/unreadable/malformed file or a missing `tickets` array yields 0
with no write. -/
theorem clear_old_tickets_correct (d : Json) (ts : List Json) (cutoff : String)
    (w : Bool) (h : ticketsArr d = some ts) (hcut : cutoff ≠ "") :
    (clear_old_tickets (.json d) cutoff w).1
        = ((ts.filter (fun t => str_lt (tsOf t) cutoff)).length : Int)
    ∧ (clear_old_tickets (.json d) cutoff true).2
        = .json (setTickets d (ts.filter (fun t => !(str_lt (tsOf t) cutoff))))
    ∧ (∀ t, t.get "timestamp" = none → t.get "created_at" = none →
        str_lt (tsOf t) cutoff = true)
    ∧ (∀ st, read_json_file st = none → clear_old_tickets st cutoff w = (0, st))
    ∧ (∀ d', ticketsArr d' = none →
        clear_old_tickets (.json d') cutoff w = (0, .json d')) := by
  have h2 : ts.length - (ts.filter (fun t => str_ge (tsOf t) cutoff)).length
      = (ts.filter (fun t => str_lt (tsOf t) cutoff)).length := by
    rw [length_sub_filter]
    simp only [str_ge, Bool.not_not]
  refine ⟨?_, ?_, ?_, ?_, ?_⟩
  · simp only [clear_old_tickets, h]
    rw [h2]
  · simp only [clear_old_tickets, h, if_pos]
    simp [str_ge]
  · intro t h1 h2
    have hts : tsOf t = "" := by simp [tsOf, h1, h2, Option.or]
    rw [hts]
    exact strLt_empty cutoff hcut
  · intro st hst
    cases st <;> simp_all [clear_old_tickets, read_json_file]
  · intro d' h'
    simp [clear_old_tickets, h']

/-- Witness for C4: with a cutoff between the two sample tickets, exactly
the old one is removed and the new one is written back. -/
theorem clear_old_tickets_correct_witness :
    clear_old_tickets (.json sampleTicketsDoc) sampleCutoff true
      = (1, .json (.obj [("tickets", .arr [sampleTicketNew])])) := by
  have h := clear_old_tickets_correct sampleTicketsDoc
      [sampleTicketOld, sampleTicketNew] sampleCutoff true rfl (by decide)
  have h1 : (clear_old_tickets (.json sampleTicketsDoc) sampleCutoff true).1 = 1 :=
    h.1.trans (by rfl)
  have hst : (clear_old_tickets (.json sampleTicketsDoc) sampleCutoff true).2
      = .json (.obj [("tickets", .arr [sampleTicketNew])]) :=
    h.2.1.trans (by rfl)
  rw [Prod.ext_iff]
  exact ⟨h1, hst⟩

/-- C5: rerunning `clear_old_tickets` on the state produced by a first run
with the same cutoff (no elapsed time) removes nothing: the second run
returns 0, because every retained ticket compares at least the cutoff. -/
theorem clear_old_tickets_idempotent (st : FileRead) (cutoff : String) (w : Bool) :
    (clear_old_tickets ((clear_old_tickets st cutoff true).2) cutoff w).1 = 0 := by
  cases st with
  | absent => rfl
  | malformed => rfl
  | json d =>
    cases hta : ticketsArr d with
    | none => simp [clear_old_tickets, hta]
    | some ts =>
      have h2 : ticketsArr (setTickets d (ts.filter (fun t => str_ge (tsOf t) cutoff)))
          = some (ts.filter (fun t => str_ge (tsOf t) cutoff)) :=
        ticketsArr_setTickets d ts _ hta
      simp only [clear_old_tickets, hta, if_pos, h2]
      rw [filter_idem]
      simp

/-- C10: the count returned by `clear_old_tickets` is computed in memory
and does not depend on whether the write-back succeeds; when the write
fails the on-disk state is unchanged, yet the same (possibly positive)
removed count is returned, as the concrete one-stale-ticket run shows. -/
theorem clear_old_tickets_write_failure (st : FileRead) (cutoff : String) :
    (clear_old_tickets st cutoff false).1 = (clear_old_tickets st cutoff true).1
    ∧ (clear_old_tickets st cutoff false).2 = st
    ∧ clear_old_tickets (.json sampleTicketsDoc) sampleCutoff false
        = (1, .json sampleTicketsDoc) := by
  refine ⟨?_, ?_, by rfl⟩
  · cases st with
    | absent => rfl
    | malformed => rfl
    | json d => cases hta : ticketsArr d <;> simp [clear_old_tickets, hta]
  · cases st with
    | absent => rfl
    | malformed => rfl
    | json d => cases hta : ticketsArr d <;> simp [clear_old_tickets, hta]

/-- Lemma: a conditional insert looks up as the inserted value on its key
when the option is populated, and is transparent otherwise. -/
theorem lookup_insOpt (kvs : List (String × Json)) (k k' : String) (ov : Option Json) :
    lookupKey k' (insOpt kvs k ov) =
      if k' = k then
        (match ov with
         | some v => some v
         | none => lookupKey k' kvs)
      else lookupKey k' kvs := by
  cases ov with
  | none => simp [insOpt]
  | some v => simp [insOpt, lookup_insertKey]

/-- C1 (amended): when the prior content of `tickets.json` is absent,
unreadable, malformed, or a valid JSON document containing a `tickets`
array, `submit_manual_ticket` prepends exactly one synthesized record —
with `ticket_id` `"manual-" ++ millisecond epoch`, `status` `"open"`,
`source` `"manual"`, `type` `"manual-review"` — at position 0, creating
the array when the file was absent/unreadable/malformed, and preserving
every existing ticket unchanged in its original relative order; for a
valid JSON document without a `tickets` array the document is written back
unchanged with no record inserted. -/
theorem submit_manual_ticket_correct (t : ManualTicket) (now : Int) (w : Bool) :
    (∀ d ts, ticketsArr d = some ts →
        submit_manual_ticket (.json d) t now w
          = (w, if w then .json (setTickets d (newTicket t now :: ts)) else .json d)
        ∧ ticketsArr (setTickets d (newTicket t now :: ts))
          = some (newTicket t now :: ts))
    ∧ (∀ st, read_json_file st = none →
        submit_manual_ticket st t now w
          = (w, if w then .json (.obj [("tickets", .arr [newTicket t now])]) else st))
    ∧ (∀ d, ticketsArr d = none →
        submit_manual_ticket (.json d) t now w = (w, .json d))
    ∧ (newTicket t now).get "ticket_id" = some (.str ("manual-" ++ toString now))
    ∧ (newTicket t now).get "status" = some (.str "open")
    ∧ (newTicket t now).get "source" = some (.str "manual")
    ∧ (newTicket t now).get "type" = some (.str "manual-review") := by
  refine ⟨?_, ?_, ?_, rfl, rfl, rfl, rfl⟩
  · intro d ts h
    exact ⟨by simp [submit_manual_ticket, h], ticketsArr_setTickets d ts _ h⟩
  · intro st hst
    cases st with
    | absent => rfl
    | malformed => rfl
    | json v => simp [read_json_file] at hst
  · intro d h
    simp [submit_manual_ticket, h]

/-- Counterexample for C1 as stated: on the prior content `{}` — a valid
JSON document — no record is inserted and no `tickets` array is created;
the document is written back unchanged and the call still reports
success. -/
theorem submit_manual_ticket_counterexample :
    submit_manual_ticket (.json (.obj [])) sampleManual 0 true
      = (true, .json (.obj []))
    ∧ (Json.obj []).get "tickets" = none :=
  ⟨rfl, rfl⟩

/-- Witness for C1 at the two-ticket sample document. -/
theorem submit_manual_ticket_correct_witness :
    submit_manual_ticket (.json sampleTicketsDoc) sampleManual 5 true
      = (true, .json (.obj [("tickets",
          .arr [newTicket sampleManual 5, sampleTicketOld, sampleTicketNew])])) := by
  have h := ((submit_manual_ticket_correct sampleManual 5 true).1
      sampleTicketsDoc [sampleTicketOld, sampleTicketNew] rfl).1
  rw [h]
  rfl

/-- C2: the claim asserts `update_settings` never panics for any on-disk
content, but when the file parses to a valid JSON value that is **not** an
object (an array or a string) the code panics at
`config.as_object_mut().unwrap()` — modelled as result `none`; only a
missing/unreadable/malformed file (or an object) yields the claimed
boolean. -/
theorem update_settings_panics_on_non_object :
    update_settings (.json (.arr [])) {} true = (none, .json (.arr []))
    ∧ update_settings (.json (.str "x")) {} false = (none, .json (.str "x"))
    ∧ update_settings .absent {} true = (some true, .json (.obj []))
    ∧ update_settings .malformed {} true = (some true, .json (.obj [])) :=
  ⟨rfl, rfl, rfl, rfl⟩

/-- C6: on a prior settings object, `update_settings` sets each of the five
recognized keys exactly when the corresponding field is supplied, leaves
each absent field's stored value untouched, preserves every unrecognized
key verbatim, and a subsequent `get_settings` returns the updated
document. -/
theorem update_settings_frame (kvs : List (String × Json)) (u : SettingsUpdate) :
    (update_settings (.json (.obj kvs)) u true).1 = some true
    ∧ ∃ kvs', (update_settings (.json (.obj kvs)) u true).2 = .json (.obj kvs')
        ∧ get_settings ((update_settings (.json (.obj kvs)) u true).2) = .obj kvs'
        ∧ lookupKey "serverUrl" kvs' = (match u.server_url with
            | some v => some (.str v)
            | none => lookupKey "serverUrl" kvs)
        ∧ lookupKey "monitorInterval" kvs' = (match u.monitor_interval with
            | some v => some (.num v)
            | none => lookupKey "monitorInterval" kvs)
        ∧ lookupKey "alertEmail" kvs' = (match u.alert_email with
            | some v => some (.str v)
            | none => lookupKey "alertEmail" kvs)
        ∧ lookupKey "logRetention" kvs' = (match u.log_retention with
            | some v => some (.num v)
            | none => lookupKey "logRetention" kvs)
        ∧ lookupKey "confidenceThreshold" kvs' = (match u.confidence_threshold with
            | some v => some (.num v)
            | none => lookupKey "confidenceThreshold" kvs)
        ∧ (∀ k, ¬k ∈ settingsKeys → lookupKey k kvs' = lookupKey k kvs) := by
  refine ⟨rfl, applySettings kvs u, rfl, rfl, ?_, ?_, ?_, ?_, ?_, ?_⟩
  · simp only [applySettings, lookup_insOpt]
    simp
    cases u.server_url <;> simp
  · simp only [applySettings, lookup_insOpt]
    simp
    cases u.monitor_interval <;> simp
  · simp only [applySettings, lookup_insOpt]
    simp
    cases u.alert_email <;> simp
  · simp only [applySettings, lookup_insOpt]
    simp
    cases u.log_retention <;> simp
  · simp only [applySettings, lookup_insOpt]
    simp
    cases u.confidence_threshold <;> simp
  · intro k hk
    simp only [settingsKeys, List.mem_cons, List.not_mem_nil, or_false] at hk
    push_neg at hk
    obtain ⟨h1, h2, h3, h4, h5⟩ := hk
    simp only [applySettings, lookup_insOpt, if_neg h1, if_neg h2, if_neg h3,
      if_neg h4, if_neg h5]

/-- Witness for C6: updating only `monitorInterval` to 30 preserves a
pre-existing `alertEmail` and an unrecognized key. -/
theorem update_settings_frame_witness :
    ∃ kvs',
      (update_settings
          (.json (.obj [("alertEmail", Json.str "a@b"), ("custom", Json.num 7)]))
          { monitor_interval := some 30 } true).2 = .json (.obj kvs')
      ∧ lookupKey "monitorInterval" kvs' = some (.num 30)
      ∧ lookupKey "alertEmail" kvs' = some (.str "a@b")
      ∧ lookupKey "custom" kvs' = some (.num 7) := by
  obtain ⟨-, kvs', h1, -, -, hmon, hae, -, -, hframe⟩ :=
    update_settings_frame [("alertEmail", Json.str "a@b"), ("custom", Json.num 7)]
      { monitor_interval := some 30 }
  refine ⟨kvs', h1, ?_, ?_, ?_⟩
  · rw [hmon]
  · rw [hae]
    rfl
  · rw [hframe "custom" (by decide)]
    rfl

/-- Lemma: the code's per-resource record agrees pointwise with the
spec-worded tables. -/
theorem healthRecord_eq (r : Json) : healthRecord r = healthRecordSpec r := by
  unfold healthRecord healthRecordSpec scoreSpec trendSpec
  cases hs : (r.get "severityLevel").bind Json.asStr <;>
    cases hc : (r.get "currentState").bind Json.asStr <;>
      simp only [Option.getD_some, Option.getD_none] <;>
        first
        | rfl
        | (split <;> split <;> simp_all)

/-- C8 (amended): `build_health_scores` folds every resource entry into the
result under the display name given by the second colon-separated segment
of its key (the whole key when there is no colon), with score determined
solely by `severityLevel` (critical→20, error→40, warning→65, anything
else or missing→100) and trend determined solely by `currentState`
(critical or error→"degrading", warning→"stable", anything else or
missing→"improving"); the key `"cpu:load"` with `severityLevel`
`"critical"` and `currentState` `"critical"` yields
`{score: 20, trend: "degrading"}` under display name `"load"`, while with
no `currentState` field the trend is `"improving"`. -/
theorem build_health_scores_correct :
    (∀ d res, (d.get "resources").bind Json.asObject = some res →
        build_health_scores (.json d)
          = .obj (res.foldl
              (fun scores kv =>
                insertKey scores (displayName kv.1) (healthRecordSpec kv.2)) []))
    ∧ displayName "cpu:load" = "load"
    ∧ build_health_scores (.json (.obj [("resources", .obj
          [("cpu:load", .obj [("severityLevel", .str "critical"),
                              ("currentState", .str "critical")])])]))
        = .obj [("load", .obj [("score", .num 20), ("trend", .str "degrading")])]
    ∧ build_health_scores (.json (.obj [("resources", .obj
          [("cpu:load", .obj [("severityLevel", .str "critical")])])]))
        = .obj [("load", .obj [("score", .num 20), ("trend", .str "improving")])] := by
  refine ⟨?_, rfl, rfl, rfl⟩
  intro d res h
  simp only [build_health_scores, read_json_file, h]
  have hf : (fun scores kv => insertKey scores (displayName kv.1) (healthRecord kv.2))
      = (fun (scores : List (String × Json)) (kv : String × Json) =>
          insertKey scores (displayName kv.1) (healthRecordSpec kv.2)) := by
    funext scores kv
    rw [healthRecord_eq]
  rw [hf]

/-- Counterexample for C8 as stated: the claim's own example — the resource
key `"cpu:load"` carrying only `severityLevel = "critical"` — produces
trend `"improving"` (from the missing `currentState`), not `"degrading"`,
under display name `"load"`. -/
theorem build_health_scores_counterexample :
    build_health_scores (.json (.obj [("resources", .obj
        [("cpu:load", .obj [("severityLevel", .str "critical")])])]))
      = .obj [("load", .obj [("score", .num 20), ("trend", .str "improving")])]
    ∧ ("improving" : String) ≠ "degrading" :=
  ⟨rfl, by decide⟩

/-- Witness for C8 at a two-resource document. -/
theorem build_health_scores_correct_witness :
    build_health_scores (.json (.obj [("resources", .obj
        [("cpu:load", .obj [("severityLevel", .str "critical"),
                            ("currentState", .str "critical")]),
         ("disk", .obj [("severityLevel", .str "warning"),
                        ("currentState", .str "warning")])])]))
      = .obj [("load", .obj [("score", .num 20), ("trend", .str "degrading")]),
              ("disk", .obj [("score", .num 65), ("trend", .str "stable")])] := by
  rw [build_health_scores_correct.1
    (.obj [("resources", .obj
        [("cpu:load", .obj [("severityLevel", .str "critical"),
                            ("currentState", .str "critical")]),
         ("disk", .obj [("severityLevel", .str "warning"),
                        ("currentState", .str "warning")])])])
    [("cpu:load", .obj [("severityLevel", .str "critical"),
                        ("currentState", .str "critical")]),
     ("disk", .obj [("severityLevel", .str "warning"),
                    ("currentState", .str "warning")])] rfl]
  rfl

/-- C9: every read operation is total over the embedded file states: a
missing/unreadable file, malformed JSON, or missing/mistyped fields yield
the default/empty results (all-zero stats, empty sequence, empty object,
empty health structures), and `get_settings` returns the parsed document
verbatim otherwise. -/
theorem reads_total :
    (∀ st, read_json_file st = none →
        get_stats st = ⟨0, 0, 0, 0⟩
        ∧ get_tickets st = []
        ∧ get_settings st = .obj []
        ∧ build_health_scores st = .obj []
        ∧ build_patterns st = []
        ∧ build_proactive_actions st = [])
    ∧ (∀ v, get_settings (.json v) = v)
    ∧ (∀ s1 s2 s3, read_json_file s1 = none → read_json_file s2 = none →
        read_json_file s3 = none →
        get_health_data s1 s2 s3 = ⟨.obj [], .obj [], [], []⟩)
    ∧ (∀ d, ticketsArr d = none →
        get_stats (.json d) = ⟨0, 0, 0, 0⟩ ∧ get_tickets (.json d) = [])
    ∧ (∀ d, (d.get "resources").bind Json.asObject = none →
        build_health_scores (.json d) = .obj [])
    ∧ (∀ d, (d.get "patterns").bind Json.asObject = none →
        build_patterns (.json d) = [])
    ∧ (∀ d, (d.get "pending_actions").bind Json.asArray = none →
        build_proactive_actions (.json d) = []) := by
  refine ⟨?_, fun v => rfl, ?_, ?_, ?_, ?_, ?_⟩
  · intro st hst
    cases st with
    | absent => exact ⟨rfl, rfl, rfl, rfl, rfl, rfl⟩
    | malformed => exact ⟨rfl, rfl, rfl, rfl, rfl, rfl⟩
    | json v => simp [read_json_file] at hst
  · intro s1 s2 s3 h1 h2 h3
    cases s1 <;> cases s2 <;> cases s3 <;> first | rfl | simp_all [read_json_file]
  · intro d h
    exact ⟨by simp [get_stats, read_json_file, h], by simp [get_tickets, read_json_file, h]⟩
  · intro d h
    simp [build_health_scores, read_json_file, h]
  · intro d h
    simp [build_patterns, read_json_file, h]
  · intro d h
    simp [build_proactive_actions, read_json_file, h]

/-- Witness for C9 over concrete degenerate states and a verbatim
settings value. -/
theorem reads_total_witness :
    get_stats .absent = ⟨0, 0, 0, 0⟩
    ∧ get_tickets .malformed = []
    ∧ get_settings .absent = .obj []
    ∧ get_settings (.json (.num 3)) = .num 3
    ∧ get_health_data .absent .malformed .absent = ⟨.obj [], .obj [], [], []⟩
    ∧ get_stats (.json (.obj [("tickets", .str "oops")])) = ⟨0, 0, 0, 0⟩ :=
  ⟨(reads_total.1 .absent rfl).1, (reads_total.1 .malformed rfl).2.1,
   (reads_total.1 .absent rfl).2.2.1, reads_total.2.1 (.num 3),
   reads_total.2.2.1 .absent .malformed .absent rfl rfl rfl,
   (reads_total.2.2.2.1 (.obj [("tickets", .str "oops")]) rfl).1⟩
